import Mathlib

/-!
Shallow embedding of the Hiking-Blog Express server (src/server.js).

The server keeps two SQLite tables, `users` and `posts`, and a per-request
session object.  We model each table as a `List` of records in insertion
order (SQLite `AUTOINCREMENT` primary keys are modelled by `nextUserId` /
`nextPostId` counters), the session as a record of `Option` fields
(`undefined` = `none`), and each route handler as a pure function from
server state to server state paired with the redirect target it sends.

`Math.random()` outputs are threaded in as rational parameters `r` with
`0 ≤ r < 1`; current-time strings are threaded in as `now` parameters.
The avatar PNG buffer produced by `generateAvatar` is modelled by the
drawing parameters that determine it: canvas width and height, the chosen
background color, and the uppercased letter drawn.
-/

namespace HikingBlog

/-- A JavaScript value, as far as `generateAvatar`'s dynamic
`typeof width !== 'number'` guard can distinguish them. -/
inductive JSVal where
  | num (q : ℚ)
  | str (s : String)
  | undef
  deriving Repr, DecidableEq

/-- `typeof v === 'number'`. -/
def JSVal.isNumber : JSVal → Bool
  | .num _ => true
  | _ => false

/-- The numeric value of a `JSVal`; only meaningful when `isNumber`. -/
def JSVal.toQ : JSVal → ℚ
  | .num q => q
  | _ => 0

/-- The fixed five-color background palette of `generateAvatar`. -/
def colorScheme : List String :=
  ["#4369D9", "#C2E0F2", "#95A617", "#D9C355", "#BFAB6F"]

/-- The data of an avatar image produced by `generateAvatar`: the canvas
dimensions, the background color and the letter drawn. -/
structure Avatar where
  width : ℚ
  height : ℚ
  bgColor : String
  letter : Char
  deriving Repr, DecidableEq

/-- `Math.floor(r * 5)`, the background color index drawn from
`Math.random()` output `r`. -/
def floorTimes5 (r : ℚ) : ℤ := Int.floor (r * 5)

/-- `generateAvatar(letter, width = 100, height = 100)` (src/server.js:567).
Throws (`Except.error`) exactly when the guard
`typeof width !== 'number' || typeof height !== 'number' || width <= 0 || height <= 0`
fires; otherwise returns the avatar drawn on a `width × height` canvas with
background color `colorScheme[Math.floor(r * 5)]`. -/
def generateAvatar (letter : Char) (r : ℚ)
    (width : JSVal := JSVal.num 100) (height : JSVal := JSVal.num 100) :
    Except String Avatar :=
  if ¬ width.isNumber ∨ ¬ height.isNumber ∨ width.toQ ≤ 0 ∨ height.toQ ≤ 0 then
    Except.error "Invalid width or height values"
  else
    Except.ok { width := width.toQ, height := height.toQ,
                bgColor := colorScheme.getD (floorTimes5 r).toNat "",
                letter := letter.toUpper }

/-- The avatar `generateAvatar` returns at the default 100 × 100 size. -/
def generateAvatarD (letter : Char) (r : ℚ) : Avatar :=
  { width := 100, height := 100,
    bgColor := colorScheme.getD (floorTimes5 r).toNat "",
    letter := letter.toUpper }

/-- The character class `[a-zA-z]` of `getFirstLetter`'s regular expression:
by the source's literal (lowercase z after A), it spans char codes 65–122. -/
def matchesLetterClass (c : Char) : Bool :=
  65 ≤ c.toNat && c.toNat ≤ 122

/-- `getFirstLetter(username)` (src/server.js:463): first char matching
`[a-zA-z]`, defaulting to `'A'`. -/
def getFirstLetter (username : String) : Char :=
  match username.toList.find? matchesLetterClass with
  | some c => c
  | none => 'A'

/-- A row of the `users` table:
`users(id, username, hashedGoogleId, avatar_url, memberSince)`. -/
structure User where
  id : ℕ
  username : String
  hashedGoogleId : String
  avatar : Avatar
  memberSince : String
  deriving Repr, DecidableEq

/-- A row of the `posts` table:
`posts(id, title, content, username, timestamp, likes)`. -/
structure Post where
  id : ℕ
  title : String
  content : String
  username : String
  timestamp : String
  likes : ℤ
  deriving Repr, DecidableEq

/-- The express-session fields this server reads and writes;
`none` models a field that is `undefined`. -/
structure Session where
  userId : Option ℕ
  loggedIn : Bool
  username : Option String
  avatar : Option Avatar
  memberSince : Option String
  deriving Repr, DecidableEq

/-- The whole server state: both tables (with their autoincrement
counters) and the requester's session. -/
structure ServerState where
  users : List User
  posts : List Post
  session : Session
  nextUserId : ℕ
  nextPostId : ℕ
  deriving Repr, DecidableEq

/-- `findUserByUsername(username)` (src/server.js:290):
`SELECT * FROM users WHERE username = ?` returns the first matching row;
the JS function returns `false` (here `none`) when there is none. -/
def findUserByUsername (users : List User) (username : String) : Option User :=
  users.find? (fun u => u.username == username)

/-- `getCurrentUser(req)` (src/server.js:492):
`findUserByUsername(req.session.username)`; an `undefined` session
username matches no row. -/
def getCurrentUser (s : ServerState) : Option User :=
  match s.session.username with
  | some uname => findUserByUsername s.users uname
  | none => none

/-- `addUser(username)` (src/server.js:361): INSERT a row whose
`hashedGoogleId` is a random integer (threaded in as `randId`, stored
with TEXT affinity, hence compared as its decimal string), whose avatar
is `generateAvatar(getFirstLetter(username))` with random draw `rand`,
and whose `memberSince` is the current date `now`.  The schema declares
both `username` and `hashedGoogleId` UNIQUE (src/server.js:230-236), so
the INSERT throws when either value already occurs in the table; any
thrown error is caught and logged, leaving the table unchanged. -/
def addUser (s : ServerState) (username : String) (rand : ℚ) (randId : ℕ)
    (now : String) : ServerState :=
  match generateAvatar (getFirstLetter username) rand with
  | Except.ok av =>
      if s.users.any
          (fun u => u.username == username || u.hashedGoogleId == toString randId) then
        s
      else
        { s with
          users := s.users ++
            [{ id := s.nextUserId, username := username,
               hashedGoogleId := toString randId, avatar := av,
               memberSince := now }],
          nextUserId := s.nextUserId + 1 }
  | Except.error _ => s

/-- `isAuthenticated` middleware (src/server.js:377): JS truthiness of
`req.session.userId` (both `undefined` and `0` are falsy). -/
def isAuthenticated (sess : Session) : Bool :=
  match sess.userId with
  | some uid => uid != 0
  | none => false

/-- `loginUser(req, res)` (src/server.js:392): look the user up again by
the posted username and copy the row's fields into the session; when no
row matches, the session is left unchanged. -/
def loginUser (s : ServerState) (userName : String) : Session :=
  match findUserByUsername s.users userName with
  | some user =>
      { userId := some user.id, loggedIn := true,
        username := some user.username, avatar := some user.avatar,
        memberSince := some user.memberSince }
  | none => s.session

/-- `logoutUser(req, res)` (src/server.js:414): reset every session field. -/
def logoutUser (_sess : Session) : Session :=
  { userId := none, loggedIn := false, username := none,
    avatar := none, memberSince := none }

/-- `addPost(title, content, user)` (src/server.js:521): INSERT a row with
the author's username, the current date and zero likes.  When `user` is
`false` (no current user), `user.username` throws and the catch leaves
the table unchanged. -/
def addPost (s : ServerState) (title content : String) (user : Option User)
    (now : String) : ServerState :=
  match user with
  | some u =>
      { s with
        posts := s.posts ++
          [{ id := s.nextPostId, title := title, content := content,
             username := u.username, timestamp := now, likes := 0 }],
        nextPostId := s.nextPostId + 1 }
  | none => s

/-- `updatePostLikes(req, res)` (src/server.js:447): SELECT the post by id,
then `UPDATE posts SET likes = post.likes + 1 WHERE id = ?`.  When no row
matches, `post.likes` throws before the UPDATE runs and the catch leaves
the table unchanged. -/
def updatePostLikes (posts : List Post) (id : ℕ) : List Post :=
  match posts.find? (fun p => p.id == id) with
  | some post =>
      posts.map (fun p => if p.id == id then { p with likes := post.likes + 1 } else p)
  | none => posts

/-- `deletePost(req, res)` (src/server.js:536): SELECT the post by id;
return untouched when it is missing or its `username` differs from the
session's; otherwise `DELETE FROM posts WHERE id = ?`. -/
def deletePost (s : ServerState) (id : ℕ) : ServerState :=
  match s.posts.find? (fun p => p.id == id) with
  | some post =>
      if s.session.username == some post.username then
        { s with posts := s.posts.filter (fun p => p.id != id) }
      else s
  | none => s

/-- `handleAvatar(req, res)` (src/server.js:475): look the user up by the
`:username` route parameter and return its stored avatar, or `null`
(`none`) when the user is unknown.  (Every INSERT into `users` supplies
`avatar_url`, so the row's field is never `undefined` and the
regeneration branch of the source is dead.) -/
def handleAvatar (s : ServerState) (username : String) : Option Avatar :=
  match findUserByUsername s.users username with
  | some user => some user.avatar
  | none => none

/-- `POST /register` (src/server.js:160): register only when
`findUserByUsername` finds nothing, else redirect with the duplicate
error code. -/
def postRegisterRoute (s : ServerState) (userName : String) (rand : ℚ)
    (randId : ℕ) (now : String) : ServerState × String :=
  match findUserByUsername s.users userName with
  | none => (addUser s userName rand randId now, "/register")
  | some _ => (s, "/register?error=Already%20Registered")

/-- `POST /login` (src/server.js:172): log in only when the username
exists, else redirect with the not-found error code. -/
def postLoginRoute (s : ServerState) (userName : String) : ServerState × String :=
  match findUserByUsername s.users userName with
  | some _ => ({ s with session := loginUser s userName }, "/")
  | none => (s, "/login?error=Not%20Found")

/-- `GET /logout` (src/server.js:189). -/
def getLogoutRoute (s : ServerState) : ServerState × String :=
  ({ s with session := logoutUser s.session }, "/")

/-- `POST /posts` (src/server.js:132): `addPost` with the current user,
then redirect home. -/
def postPostsRoute (s : ServerState) (title content now : String) :
    ServerState × String :=
  (addPost s title content (getCurrentUser s) now, "/")

/-- `POST /like/:id` (src/server.js:136): update likes only when the
session's username is defined; always redirect home. -/
def postLikeRoute (s : ServerState) (id : ℕ) : ServerState × String :=
  if s.session.username ≠ none then
    ({ s with posts := updatePostLikes s.posts id }, "/")
  else (s, "/")

/-- `POST /delete/:id` (src/server.js:196): guarded by `isAuthenticated`
(which redirects to `/login` otherwise), then `deletePost` and redirect
home. -/
def postDeleteRoute (s : ServerState) (id : ℕ) : ServerState × String :=
  if isAuthenticated s.session then (deletePost s id, "/")
  else (s, "/login")

/-- One client-visible operation on the server, with its random draws and
timestamps threaded in as data. -/
inductive Op where
  | register (userName : String) (rand : ℚ) (randId : ℕ) (now : String)
  | login (userName : String)
  | logout
  | createPost (title content now : String)
  | like (id : ℕ)
  | delete (id : ℕ)
  | profile
  | avatarReq (username : String)
  | home
  deriving Repr, DecidableEq

/-- Whether an operation is the registration route. -/
def Op.isRegister : Op → Bool
  | .register _ _ _ _ => true
  | _ => false

/-- The state reached after one operation.  `GET /profile`, `GET /` and
`GET /avatar/:username` only read (`renderProfile`, `getPosts`,
`handleAvatar` run SELECTs), so they leave the state unchanged. -/
def step (s : ServerState) : Op → ServerState
  | .register userName rand randId now => (postRegisterRoute s userName rand randId now).1
  | .login userName => (postLoginRoute s userName).1
  | .logout => (getLogoutRoute s).1
  | .createPost title content now => (postPostsRoute s title content now).1
  | .like id => (postLikeRoute s id).1
  | .delete id => (postDeleteRoute s id).1
  | .profile => s
  | .avatarReq _ => s
  | .home => s

/-- The environment guarantee on an operation's random draws:
`Math.random()` returns a value in `[0, 1)`. -/
def ValidOp : Op → Prop
  | .register _ rand _ _ => 0 ≤ rand ∧ rand < 1
  | _ => True

/-- The state after `initializeDB` (src/server.js:215) seeds the sample
data, with the two sample avatars' random draws `r1`, `r2` threaded in;
the requesting session starts empty. -/
def initState (r1 r2 : ℚ) : ServerState :=
  { users :=
      [{ id := 1, username := "SampleUser", hashedGoogleId := "hashedGoogleId1",
         avatar := generateAvatarD 'S' r1, memberSince := "2024-01-01 12:00:00" },
       { id := 2, username := "AnotherUser", hashedGoogleId := "hashedGoogleId2",
         avatar := generateAvatarD 'A' r2, memberSince := "2024-01-02 12:00:00" }],
    posts :=
      [{ id := 1, title := "First Post", content := "This is the first post",
         username := "SampleUser", timestamp := "2024-01-01 12:30:00", likes := 0 },
       { id := 2, title := "Second Post", content := "This is the second post",
         username := "AnotherUser", timestamp := "2024-01-02 12:30:00", likes := 0 }],
    session := { userId := none, loggedIn := false, username := none,
                 avatar := none, memberSince := none },
    nextUserId := 3,
    nextPostId := 3 }

/-- States reachable from the seeded database by valid operations. -/
inductive Reachable : ServerState → Prop where
  | init (r1 r2 : ℚ) (h1 : 0 ≤ r1 ∧ r1 < 1) (h2 : 0 ≤ r2 ∧ r2 < 1) :
      Reachable (initState r1 r2)
  | next (s : ServerState) (op : Op) (hs : Reachable s) (hop : ValidOp op) :
      Reachable (step s op)

/-- An avatar as every row of the `users` table stores one: the default
100 × 100 canvas with a palette background. -/
def goodAvatar (av : Avatar) : Prop :=
  av.width = 100 ∧ av.height = 100 ∧ av.bgColor ∈ colorScheme

/-- The database invariant the operations maintain: every stored avatar is
well-formed, post ids are below the autoincrement counter and pairwise
distinct, and like counts are non-negative. -/
def Inv (s : ServerState) : Prop :=
  (∀ u ∈ s.users, goodAvatar u.avatar) ∧
  (∀ p ∈ s.posts, p.id < s.nextPostId) ∧
  s.posts.Pairwise (fun a b => a.id ≠ b.id) ∧
  (∀ p ∈ s.posts, 0 ≤ p.likes)

/-! Concrete records used to evaluate the theorems on sample inputs. -/

/-- The first seeded user of `initState 0 0`. -/
def userW : User :=
  { id := 1, username := "SampleUser", hashedGoogleId := "hashedGoogleId1",
    avatar := generateAvatarD 'S' 0, memberSince := "2024-01-01 12:00:00" }

/-- The first seeded post of `initState 0 0`. -/
def postW : Post :=
  { id := 1, title := "First Post", content := "This is the first post",
    username := "SampleUser", timestamp := "2024-01-01 12:30:00", likes := 0 }

/-- The seeded state with a session logged in as `SampleUser`. -/
def sW : ServerState :=
  { initState 0 0 with
    session := { userId := some 1, loggedIn := true,
                 username := some "SampleUser", avatar := none,
                 memberSince := none } }

/-- The seeded state after registering `UserA` with random identity
token 7 (proved equal to that route result below): its users table holds
a record whose `hashedGoogleId` is the string `"7"`. -/
def sColl : ServerState :=
  { initState 0 0 with
    users := (initState 0 0).users ++
      [{ id := (initState 0 0).nextUserId, username := "UserA",
         hashedGoogleId := toString 7,
         avatar := generateAvatarD (getFirstLetter "UserA") 0,
         memberSince := "2024-06-01 09:00" }],
    nextUserId := (initState 0 0).nextUserId + 1 }

/-! ## Helper lemmas -/

/-- With the default 100 × 100 size, `generateAvatar` never throws. -/
theorem generateAvatar_default (letter : Char) (r : ℚ) :
    generateAvatar letter r = Except.ok (generateAvatarD letter r) := by
  simp [generateAvatar, generateAvatarD, JSVal.isNumber, JSVal.toQ]

/-- In a list of posts with pairwise-distinct ids, an id determines the
element. -/
theorem mem_id_unique {l : List Post}
    (hd : l.Pairwise (fun a b => a.id ≠ b.id))
    {p q : Post} (hp : p ∈ l) (hq : q ∈ l) (h : p.id = q.id) : p = q := by
  induction l with
  | nil => cases hp
  | cons a t ih =>
      rcases List.pairwise_cons.mp hd with ⟨ha, ht⟩
      rcases List.mem_cons.mp hp with rfl | hp'
      · rcases List.mem_cons.mp hq with rfl | hq'
        · rfl
        · exact absurd h (ha q hq')
      · rcases List.mem_cons.mp hq with rfl | hq'
        · exact absurd h.symm (ha p hp')
        · exact ih ht hp' hq'

/-- In a list of posts with pairwise-distinct ids, the SELECT-by-id of a
member's id returns exactly that member. -/
theorem find?_id_eq_some {l : List Post}
    (hd : l.Pairwise (fun a b => a.id ≠ b.id))
    {p : Post} (hp : p ∈ l) :
    l.find? (fun q => q.id == p.id) = some p := by
  induction l with
  | nil => cases hp
  | cons a t ih =>
      rcases List.pairwise_cons.mp hd with ⟨ha, ht⟩
      rcases List.mem_cons.mp hp with rfl | hp'
      · simp [List.find?]
      · have : (a.id == p.id) = false := by
          simpa using fun h => ha p hp' h
        simp [List.find?, this, ih ht hp']

/-- The color index drawn from a `Math.random()` output is within the
palette. -/
theorem floorTimes5_toNat_lt (r : ℚ) (h0 : 0 ≤ r) (h1 : r < 1) :
    (floorTimes5 r).toNat < 5 := by
  have hub : r * 5 < 5 := by nlinarith
  have hlb : (0 : ℚ) ≤ r * 5 := by positivity
  have h1' : floorTimes5 r < 5 := by
    have := Int.floor_lt.mpr (show r * 5 < ((5 : ℤ) : ℚ) by exact_mod_cast hub)
    simpa [floorTimes5] using this
  have h0' : 0 ≤ floorTimes5 r := by
    simpa [floorTimes5] using Int.floor_nonneg.mpr hlb
  omega

/-- Indexing the palette below its length lands in the palette. -/
theorem getD_colorScheme_mem {i : ℕ} (h : i < 5) :
    colorScheme.getD i "" ∈ colorScheme := by
  interval_cases i <;> simp [colorScheme]

/-- Avatars produced at the default size from a `Math.random()` output
are well-formed. -/
theorem goodAvatar_generateAvatarD (letter : Char) {r : ℚ}
    (h0 : 0 ≤ r) (h1 : r < 1) : goodAvatar (generateAvatarD letter r) := by
  refine ⟨rfl, rfl, ?_⟩
  exact getD_colorScheme_mem (floorTimes5_toNat_lt r h0 h1)

/-! ## Shape and frame lemmas for the operations -/

/-- Reduction of `addUser`: the default-size avatar never throws, so the
outcome is decided by the UNIQUE-constraint check. -/
theorem addUser_eq (s : ServerState) (username : String) (rand : ℚ)
    (randId : ℕ) (now : String) :
    addUser s username rand randId now =
      if s.users.any
          (fun u => u.username == username || u.hashedGoogleId == toString randId) then
        s
      else
        { s with
          users := s.users ++
            [{ id := s.nextUserId, username := username,
               hashedGoogleId := toString randId,
               avatar := generateAvatarD (getFirstLetter username) rand,
               memberSince := now }],
          nextUserId := s.nextUserId + 1 } := by
  unfold addUser
  rw [generateAvatar_default]

/-- The likes UPDATE rewrites each matching row's id-preserving fields. -/
theorem likeMap_id (post0 : Post) (i : ℕ) (p : Post) :
    (if p.id == i then { p with likes := post0.likes + 1 } else p).id = p.id := by
  by_cases h : (p.id == i) = true <;> simp [h]

/-- `updatePostLikes` either leaves the table alone (no row matched) or
maps the found row's incremented count over the rows with that id. -/
theorem updatePostLikes_shape (posts : List Post) (i : ℕ) :
    updatePostLikes posts i = posts ∨
    ∃ post0, post0 ∈ posts ∧ post0.id = i ∧
      updatePostLikes posts i =
        posts.map (fun p => if p.id == i then { p with likes := post0.likes + 1 } else p) := by
  unfold updatePostLikes
  cases hfind : posts.find? (fun p => p.id == i) with
  | none => exact Or.inl rfl
  | some post0 =>
      right
      refine ⟨post0, List.mem_of_find?_eq_some hfind, ?_, rfl⟩
      simpa using List.find?_some hfind

/-- `deletePost` leaves the table alone or filters out the rows with the
requested id. -/
theorem deletePost_posts_shape (s : ServerState) (i : ℕ) :
    (deletePost s i).posts = s.posts ∨
    (deletePost s i).posts = s.posts.filter (fun p => p.id != i) := by
  unfold deletePost
  split
  · split
    · exact Or.inr rfl
    · exact Or.inl rfl
  · exact Or.inl rfl

/-- `deletePost` touches only the posts table. -/
theorem deletePost_frame (s : ServerState) (i : ℕ) :
    (deletePost s i).users = s.users ∧ (deletePost s i).session = s.session ∧
    (deletePost s i).nextUserId = s.nextUserId ∧
    (deletePost s i).nextPostId = s.nextPostId := by
  unfold deletePost
  split
  · split
    · exact ⟨rfl, rfl, rfl, rfl⟩
    · exact ⟨rfl, rfl, rfl, rfl⟩
  · exact ⟨rfl, rfl, rfl, rfl⟩

/-- `addPost` touches only the posts table and its counter. -/
theorem addPost_frame (s : ServerState) (title content : String)
    (user : Option User) (now : String) :
    (addPost s title content user now).users = s.users ∧
    (addPost s title content user now).session = s.session ∧
    (addPost s title content user now).nextUserId = s.nextUserId := by
  cases user <;> exact ⟨rfl, rfl, rfl⟩

/-- `POST /register` never touches the posts table. -/
theorem postRegisterRoute_posts (s : ServerState) (uname : String) (rand : ℚ)
    (randId : ℕ) (now : String) :
    (postRegisterRoute s uname rand randId now).1.posts = s.posts ∧
    (postRegisterRoute s uname rand randId now).1.nextPostId = s.nextPostId := by
  unfold postRegisterRoute
  cases hfind : findUserByUsername s.users uname with
  | some u => exact ⟨rfl, rfl⟩
  | none =>
      rw [addUser_eq]
      by_cases hany : (s.users.any
          fun u => u.username == uname || u.hashedGoogleId == toString randId) = true
      · rw [if_pos hany]
        exact ⟨rfl, rfl⟩
      · rw [if_neg hany]
        exact ⟨rfl, rfl⟩

/-- `POST /register`'s effect on the users table: unchanged or one
appended record. -/
theorem postRegisterRoute_users (s : ServerState) (uname : String) (rand : ℚ)
    (randId : ℕ) (now : String) :
    (postRegisterRoute s uname rand randId now).1.users = s.users ∨
    (postRegisterRoute s uname rand randId now).1.users =
      s.users ++ [{ id := s.nextUserId, username := uname,
                    hashedGoogleId := toString randId,
                    avatar := generateAvatarD (getFirstLetter uname) rand,
                    memberSince := now }] := by
  unfold postRegisterRoute
  cases hfind : findUserByUsername s.users uname with
  | some u => exact Or.inl rfl
  | none =>
      rw [addUser_eq]
      by_cases hany : (s.users.any
          fun u => u.username == uname || u.hashedGoogleId == toString randId) = true
      · rw [if_pos hany]
        exact Or.inl rfl
      · rw [if_neg hany]
        exact Or.inr rfl

/-- `POST /login` changes at most the session. -/
theorem postLoginRoute_frame (s : ServerState) (uname : String) :
    (postLoginRoute s uname).1.users = s.users ∧
    (postLoginRoute s uname).1.posts = s.posts ∧
    (postLoginRoute s uname).1.nextUserId = s.nextUserId ∧
    (postLoginRoute s uname).1.nextPostId = s.nextPostId := by
  unfold postLoginRoute
  cases hfind : findUserByUsername s.users uname with
  | some u => exact ⟨rfl, rfl, rfl, rfl⟩
  | none => exact ⟨rfl, rfl, rfl, rfl⟩

/-- `POST /like/:id` changes at most the posts table. -/
theorem postLikeRoute_frame (s : ServerState) (i : ℕ) :
    (postLikeRoute s i).1.users = s.users ∧
    (postLikeRoute s i).1.session = s.session ∧
    (postLikeRoute s i).1.nextUserId = s.nextUserId ∧
    (postLikeRoute s i).1.nextPostId = s.nextPostId := by
  unfold postLikeRoute
  by_cases hu : s.session.username ≠ none
  · rw [if_pos hu]
    exact ⟨rfl, rfl, rfl, rfl⟩
  · rw [if_neg hu]
    exact ⟨rfl, rfl, rfl, rfl⟩

/-- The posts table after `POST /like/:id` is `updatePostLikes` or
untouched. -/
theorem postLikeRoute_posts (s : ServerState) (i : ℕ) :
    (postLikeRoute s i).1.posts = updatePostLikes s.posts i ∨
    (postLikeRoute s i).1.posts = s.posts := by
  unfold postLikeRoute
  by_cases hu : s.session.username ≠ none
  · rw [if_pos hu]
    exact Or.inl rfl
  · rw [if_neg hu]
    exact Or.inr rfl

/-- The posts table after `POST /delete/:id` is `deletePost`'s or
untouched. -/
theorem postDeleteRoute_state (s : ServerState) (i : ℕ) :
    (postDeleteRoute s i).1 = deletePost s i ∨ (postDeleteRoute s i).1 = s := by
  unfold postDeleteRoute
  by_cases hb : isAuthenticated s.session = true
  · rw [if_pos hb]
    exact Or.inl rfl
  · rw [if_neg hb]
    exact Or.inr rfl

/-! ## The invariant is maintained -/

/-- Every operation preserves the database invariant. -/
theorem inv_step {s : ServerState} {op : Op} (hs : Inv s) (hop : ValidOp op) :
    Inv (step s op) := by
  obtain ⟨hav, hbound, hdist, hnonneg⟩ := hs
  cases op with
  | register uname rand randId now =>
      obtain ⟨hr0, hr1⟩ := hop
      obtain ⟨hposts, hnext⟩ := postRegisterRoute_posts s uname rand randId now
      refine ⟨?_, ?_, ?_, ?_⟩
      · rcases postRegisterRoute_users s uname rand randId now with husers | husers <;>
          simp only [step, husers]
        · exact hav
        · intro u hu
          rcases List.mem_append.mp hu with h | h
          · exact hav u h
          · simp only [List.mem_singleton] at h
            subst h
            exact goodAvatar_generateAvatarD _ hr0 hr1
      · simp only [step, hposts, hnext]
        exact hbound
      · simp only [step, hposts]
        exact hdist
      · simp only [step, hposts]
        exact hnonneg
  | login uname =>
      obtain ⟨h1, h2, h3, h4⟩ := postLoginRoute_frame s uname
      exact ⟨by simp only [step, h1]; exact hav,
             by simp only [step, h2, h4]; exact hbound,
             by simp only [step, h2]; exact hdist,
             by simp only [step, h2]; exact hnonneg⟩
  | logout => exact ⟨hav, hbound, hdist, hnonneg⟩
  | profile => exact ⟨hav, hbound, hdist, hnonneg⟩
  | avatarReq uname => exact ⟨hav, hbound, hdist, hnonneg⟩
  | home => exact ⟨hav, hbound, hdist, hnonneg⟩
  | createPost title content now =>
      simp only [step, postPostsRoute]
      cases hcur : getCurrentUser s with
      | none => exact ⟨hav, hbound, hdist, hnonneg⟩
      | some u =>
          simp only [addPost]
          refine ⟨hav, ?_, ?_, ?_⟩
          · intro p hp
            rcases List.mem_append.mp hp with h | h
            · exact Nat.lt_succ_of_lt (hbound p h)
            · simp only [List.mem_singleton] at h
              subst h
              exact Nat.lt_succ_self _
          · rw [List.pairwise_append]
            refine ⟨hdist, by simp, ?_⟩
            intro a ha b hb
            simp only [List.mem_singleton] at hb
            subst hb
            exact Nat.ne_of_lt (hbound a ha)
          · intro p hp
            rcases List.mem_append.mp hp with h | h
            · exact hnonneg p h
            · simp only [List.mem_singleton] at h
              subst h
              exact le_refl 0
  | like i =>
      obtain ⟨h1, h2, h3, h4⟩ := postLikeRoute_frame s i
      refine ⟨by simp only [step, h1]; exact hav, ?_, ?_, ?_⟩ <;>
        simp only [step, h4] <;>
        rcases postLikeRoute_posts s i with hp | hp <;> rw [hp]
      · rcases updatePostLikes_shape s.posts i with heq | ⟨post0, hpost0, hpid, heq⟩ <;>
          rw [heq]
        · exact hbound
        · intro p hmem
          rcases List.mem_map.mp hmem with ⟨a, ha, rfl⟩
          rw [likeMap_id]
          exact hbound a ha
      · exact hbound
      · rcases updatePostLikes_shape s.posts i with heq | ⟨post0, hpost0, hpid, heq⟩ <;>
          rw [heq]
        · exact hdist
        · rw [List.pairwise_map]
          refine hdist.imp ?_
          intro a b hab
          rw [likeMap_id, likeMap_id]
          exact hab
      · exact hdist
      · rcases updatePostLikes_shape s.posts i with heq | ⟨post0, hpost0, hpid, heq⟩ <;>
          rw [heq]
        · exact hnonneg
        · intro p hmem
          rcases List.mem_map.mp hmem with ⟨a, ha, rfl⟩
          by_cases h : (a.id == i) = true
          · simp only [h, if_true]
            have := hnonneg post0 hpost0
            omega
          · simp only [h, if_false]
            exact hnonneg a ha
      · exact hnonneg
  | delete i =>
      rcases postDeleteRoute_state s i with hstate | hstate <;> simp only [step, hstate]
      · obtain ⟨h1, h2, h3, h4⟩ := deletePost_frame s i
        have hshape := deletePost_posts_shape s i
        refine ⟨by rw [h1]; exact hav, ?_, ?_, ?_⟩
        · rw [h4]
          rcases hshape with hp | hp <;> rw [hp]
          · exact hbound
          · intro p hmem
            exact hbound p (List.mem_of_mem_filter hmem)
        · rcases hshape with hp | hp <;> rw [hp]
          · exact hdist
          · exact hdist.sublist (List.filter_sublist _)
        · rcases hshape with hp | hp <;> rw [hp]
          · exact hnonneg
          · intro p hmem
            exact hnonneg p (List.mem_of_mem_filter hmem)
      · exact ⟨hav, hbound, hdist, hnonneg⟩

/-- Every reachable state satisfies the database invariant. -/
theorem reachable_inv {s : ServerState} (hs : Reachable s) : Inv s := by
  induction hs with
  | init r1 r2 h1 h2 =>
      refine ⟨?_, ?_, ?_, ?_⟩
      · intro u hu
        simp only [initState, List.mem_cons, List.not_mem_nil, or_false] at hu
        rcases hu with rfl | rfl
        · exact goodAvatar_generateAvatarD 'S' h1.1 h1.2
        · exact goodAvatar_generateAvatarD 'A' h2.1 h2.2
      · intro p hp
        simp only [initState, List.mem_cons, List.not_mem_nil, or_false] at hp
        rcases hp with rfl | rfl <;> simp [initState]
      · simp only [initState]
        decide
      · intro p hp
        simp only [initState, List.mem_cons, List.not_mem_nil, or_false] at hp
        rcases hp with rfl | rfl <;> simp
  | next s op hs hop ih => exact inv_step ih hop

/-! ## Invariant and frame claims -/

/-- C6: in every reachable state every post's like count is non-negative,
and no operation decreases the like count of a post that remains in the
table. -/
theorem likes_nonneg_and_monotone (s : ServerState) (hs : Reachable s) :
    (∀ p ∈ s.posts, 0 ≤ p.likes) ∧
    (∀ op, ValidOp op → ∀ p ∈ s.posts, ∀ q ∈ (step s op).posts,
       p.id = q.id → p.likes ≤ q.likes) := by
  obtain ⟨hav, hbound, hdist, hnonneg⟩ := reachable_inv hs
  refine ⟨hnonneg, ?_⟩
  intro op hop p hp q hq hid
  have same : ∀ q', q' ∈ s.posts → p.id = q'.id → p.likes ≤ q'.likes := by
    intro q' hq' hid'
    rw [mem_id_unique hdist hp hq' hid']
  cases op with
  | register uname rand randId now =>
      rw [show (step s (Op.register uname rand randId now)).posts =
            (postRegisterRoute s uname rand randId now).1.posts from rfl,
          (postRegisterRoute_posts s uname rand randId now).1] at hq
      exact same q hq hid
  | login uname =>
      rw [show (step s (Op.login uname)).posts = (postLoginRoute s uname).1.posts from rfl,
          (postLoginRoute_frame s uname).2.1] at hq
      exact same q hq hid
  | logout => exact same q hq hid
  | profile => exact same q hq hid
  | avatarReq uname => exact same q hq hid
  | home => exact same q hq hid
  | createPost title content now =>
      simp only [step, postPostsRoute] at hq
      cases hcur : getCurrentUser s with
      | none =>
          rw [hcur] at hq
          exact same q hq hid
      | some u =>
          rw [hcur] at hq
          simp only [addPost, List.mem_append, List.mem_singleton] at hq
          rcases hq with hq | hq
          · exact same q hq hid
          · subst hq
            have := hbound p hp
            simp only at hid
            omega
  | like i =>
      rcases postLikeRoute_posts s i with hposts | hposts <;>
        rw [show (step s (Op.like i)).posts = (postLikeRoute s i).1.posts from rfl,
            hposts] at hq
      · rcases updatePostLikes_shape s.posts i with heq | ⟨post0, hpost0, hpid, heq⟩ <;>
          rw [heq] at hq
        · exact same q hq hid
        · rcases List.mem_map.mp hq with ⟨a, ha, rfl⟩
          rw [likeMap_id] at hid
          have hap : p = a := mem_id_unique hdist hp ha hid
          subst hap
          by_cases h : (p.id == i) = true
          · have hpeq : p.id = i := by simpa using h
            have hpi : post0 = p :=
              mem_id_unique hdist hpost0 hp (hpid.trans hpeq.symm)
            rw [if_pos h, hpi]
            simp only
            omega
          · rw [if_neg h]
      · exact same q hq hid
  | delete i =>
      rcases postDeleteRoute_state s i with hstate | hstate <;>
        rw [show (step s (Op.delete i)).posts = (postDeleteRoute s i).1.posts from rfl,
            hstate] at hq
      · rcases deletePost_posts_shape s i with hposts | hposts <;> rw [hposts] at hq
        · exact same q hq hid
        · exact same q (List.mem_of_mem_filter hq) hid
      · exact same q hq hid

/-- C7: a `GET /avatar/:username` request for a username present in the
users table of a reachable state returns an image of fixed 100 × 100 size
whose background color is one of the five palette colors. -/
theorem avatar_known_user_fixed (s : ServerState) (uname : String) (av : Avatar)
    (hs : Reachable s) (hav : handleAvatar s uname = some av) :
    av.width = 100 ∧ av.height = 100 ∧ av.bgColor ∈ colorScheme := by
  obtain ⟨husers, _, _, _⟩ := reachable_inv hs
  unfold handleAvatar at hav
  cases hfind : findUserByUsername s.users uname with
  | none =>
      rw [hfind] at hav
      cases hav
  | some user =>
      rw [hfind] at hav
      have hfind' : s.users.find? (fun u => u.username == uname) = some user := hfind
      have huser : user ∈ s.users := List.mem_of_find?_eq_some hfind'
      cases hav
      exact husers user huser

/-- C8: only registration writes the users table — every other operation
leaves every user record untouched — and no operation ever removes a user
record (the table only ever grows by appending). -/
theorem users_table_frame (s : ServerState) (op : Op) :
    (op.isRegister = false → (step s op).users = s.users) ∧
    (∃ t, (step s op).users = s.users ++ t) := by
  cases op with
  | register uname rand randId now =>
      constructor
      · intro h
        exact absurd h (by simp [Op.isRegister])
      · rcases postRegisterRoute_users s uname rand randId now with h | h
        · exact ⟨[], by simpa using h⟩
        · exact ⟨_, h⟩
  | login uname =>
      have h := (postLoginRoute_frame s uname).1
      exact ⟨fun _ => h, ⟨[], by simpa using h⟩⟩
  | logout =>
      have h : (step s Op.logout).users = s.users := rfl
      exact ⟨fun _ => h, ⟨[], by rw [h, List.append_nil]⟩⟩
  | profile =>
      have h : (step s Op.profile).users = s.users := rfl
      exact ⟨fun _ => h, ⟨[], by rw [h, List.append_nil]⟩⟩
  | avatarReq uname =>
      have h : (step s (Op.avatarReq uname)).users = s.users := rfl
      exact ⟨fun _ => h, ⟨[], by rw [h, List.append_nil]⟩⟩
  | home =>
      have h : (step s Op.home).users = s.users := rfl
      exact ⟨fun _ => h, ⟨[], by rw [h, List.append_nil]⟩⟩
  | createPost title content now =>
      have h := (addPost_frame s title content (getCurrentUser s) now).1
      exact ⟨fun _ => h, ⟨[], by simpa using h⟩⟩
  | like i =>
      have h := (postLikeRoute_frame s i).1
      exact ⟨fun _ => h, ⟨[], by simpa using h⟩⟩
  | delete i =>
      have h : (step s (Op.delete i)).users = s.users := by
        rcases postDeleteRoute_state s i with hstate | hstate <;>
          rw [show (step s (Op.delete i)).users = (postDeleteRoute s i).1.users from rfl,
              hstate]
        exact (deletePost_frame s i).1
      exact ⟨fun _ => h, ⟨[], by simpa using h⟩⟩

/-! ## Claim theorems -/

/-- C1: for every post `p` in the posts table, a `POST /like/:id` request
from a logged-in session (username defined) with `:id = p.id` sets `p`'s
like count to exactly its previous value plus one and leaves every other
post unchanged. -/
theorem like_increments_by_one (s : ServerState) (p : Post)
    (hdist : s.posts.Pairwise (fun a b => a.id ≠ b.id))
    (hp : p ∈ s.posts)
    (hlogged : s.session.username ≠ none) :
    (postLikeRoute s p.id).1.posts =
      s.posts.map (fun q => if q.id = p.id then { q with likes := q.likes + 1 } else q) := by
  have hfind := find?_id_eq_some hdist hp
  simp only [postLikeRoute, if_pos hlogged]
  show updatePostLikes s.posts p.id = _
  unfold updatePostLikes
  rw [hfind]
  apply List.map_congr_left
  intro a ha
  by_cases h : a.id = p.id
  · have hap : a = p := mem_id_unique hdist ha hp h
    subst hap
    simp [h]
  · simp [h]

/-- Reduction of `deletePost` when the SELECT finds the post. -/
theorem deletePost_found {s : ServerState} {p : Post}
    (hfind : s.posts.find? (fun q => q.id == p.id) = some p) :
    deletePost s p.id =
      if s.session.username == some p.username then
        { s with posts := s.posts.filter (fun q => q.id != p.id) }
      else s := by
  unfold deletePost
  rw [hfind]

/-- Reduction of `deletePost` when the SELECT finds nothing. -/
theorem deletePost_not_found {s : ServerState} {i : ℕ}
    (hfind : s.posts.find? (fun p => p.id == i) = none) :
    deletePost s i = s := by
  unfold deletePost
  rw [hfind]

/-- C2: an authenticated `POST /delete/:id` removes the post with id `:id`
exactly when the session's username equals that post's author; when the
usernames differ, or no post has that id, the posts table is unchanged. -/
theorem delete_only_by_author (s : ServerState) (i : ℕ)
    (hdist : s.posts.Pairwise (fun a b => a.id ≠ b.id))
    (hauth : isAuthenticated s.session = true) :
    (∀ p ∈ s.posts, p.id = i →
       ((p ∉ (postDeleteRoute s i).1.posts ↔ s.session.username = some p.username) ∧
        (s.session.username ≠ some p.username →
           (postDeleteRoute s i).1.posts = s.posts))) ∧
    ((∀ p ∈ s.posts, p.id ≠ i) → (postDeleteRoute s i).1.posts = s.posts) := by
  simp only [postDeleteRoute, if_pos hauth]
  constructor
  · intro p hp hpi
    subst hpi
    have hfind := find?_id_eq_some hdist hp
    rw [deletePost_found hfind]
    by_cases hu : s.session.username = some p.username
    · have hb : (s.session.username == some p.username) = true := by
        simp [hu]
      rw [if_pos hb]
      have hnotmem : p ∉ (s.posts.filter (fun q => q.id != p.id)) := by
        intro hmem
        have := (List.mem_filter.mp hmem).2
        simp at this
      exact ⟨⟨fun _ => hu, fun _ => hnotmem⟩, fun h => absurd hu h⟩
    · have hb : ¬ (s.session.username == some p.username) = true := by
        simpa using hu
      rw [if_neg hb]
      exact ⟨⟨fun hnp => absurd hp hnp, fun h => absurd h hu⟩, fun _ => rfl⟩
  · intro h
    have hfind : s.posts.find? (fun p => p.id == i) = none := by
      rw [List.find?_eq_none]
      intro p hp
      simpa using h p hp
    rw [deletePost_not_found hfind]

/-- C3: a `POST /posts` request from a session logged in as user `U`
appends one post record whose `username` is `U.username` and whose
`likes` is zero. -/
theorem created_post_attribution (s : ServerState) (uname : String) (U : User)
    (title content now : String)
    (hsess : s.session.username = some uname)
    (hfind : findUserByUsername s.users uname = some U) :
    (postPostsRoute s title content now).1.posts =
      s.posts ++ [{ id := s.nextPostId, title := title, content := content,
                    username := U.username, timestamp := now, likes := 0 }] := by
  simp [postPostsRoute, addPost, getCurrentUser, hsess, hfind]

/-- C4 (amended): `POST /register` with an already-present username adds
no user record and redirects to `/register?error=Already%20Registered`.
With a fresh username the route always redirects to `/register`, and it
inserts exactly one record with that username provided the randomly
drawn identity token differs from every stored `hashedGoogleId`; when
the token collides with a stored one, the INSERT fails on the UNIQUE
constraint and no record is added.  In both cases usernames stay
pairwise distinct. -/
theorem register_duplicate_rejected (s : ServerState) (uname : String)
    (rand : ℚ) (randId : ℕ) (now : String) :
    (∀ u, findUserByUsername s.users uname = some u →
       postRegisterRoute s uname rand randId now =
         (s, "/register?error=Already%20Registered")) ∧
    (findUserByUsername s.users uname = none →
       (postRegisterRoute s uname rand randId now).2 = "/register" ∧
       ((∀ u ∈ s.users, u.hashedGoogleId ≠ toString randId) →
          (postRegisterRoute s uname rand randId now).1.users =
            s.users ++ [{ id := s.nextUserId, username := uname,
                          hashedGoogleId := toString randId,
                          avatar := generateAvatarD (getFirstLetter uname) rand,
                          memberSince := now }]) ∧
       ((∃ u ∈ s.users, u.hashedGoogleId = toString randId) →
          (postRegisterRoute s uname rand randId now).1.users = s.users)) ∧
    (s.users.Pairwise (fun a b => a.username ≠ b.username) →
       (postRegisterRoute s uname rand randId now).1.users.Pairwise
         (fun a b => a.username ≠ b.username)) := by
  refine ⟨?_, ?_, ?_⟩
  · intro u hu
    simp [postRegisterRoute, hu]
  · intro hnone
    have hfind' : s.users.find? (fun v => v.username == uname) = none := hnone
    have hnotu : ∀ u ∈ s.users, u.username ≠ uname := by
      intro u hu
      simpa using List.find?_eq_none.mp hfind' u hu
    refine ⟨by simp [postRegisterRoute, hnone], ?_, ?_⟩
    · intro htok
      have hany : s.users.any
          (fun u => u.username == uname || u.hashedGoogleId == toString randId) = false := by
        rw [List.any_eq_false]
        intro u hu
        simp [hnotu u hu, htok u hu]
      simp only [postRegisterRoute, hnone]
      rw [addUser_eq, if_neg (by simp [hany])]
    · rintro ⟨u, hu, htok⟩
      have hany : s.users.any
          (fun u => u.username == uname || u.hashedGoogleId == toString randId) = true := by
        rw [List.any_eq_true]
        exact ⟨u, hu, by simp [htok]⟩
      simp only [postRegisterRoute, hnone]
      rw [addUser_eq, if_pos hany]
  · intro hpw
    cases hfind : findUserByUsername s.users uname with
    | some u => simpa [postRegisterRoute, hfind] using hpw
    | none =>
        have hfind' : s.users.find? (fun v => v.username == uname) = none := hfind
        have hnot : ∀ u ∈ s.users, u.username ≠ uname := by
          intro u hu
          simpa using List.find?_eq_none.mp hfind' u hu
        simp only [postRegisterRoute, hfind]
        rw [addUser_eq]
        by_cases hany : s.users.any
            (fun u => u.username == uname || u.hashedGoogleId == toString randId) = true
        · rw [if_pos hany]
          exact hpw
        · rw [if_neg hany]
          show (s.users ++ _).Pairwise _
          rw [List.pairwise_append]
          refine ⟨hpw, by simp, ?_⟩
          intro a ha b hb
          simp only [List.mem_singleton] at hb
          subst hb
          simpa using hnot a ha

/-- C4 as frozen is false on the code: in the reachable state `sColl`
(obtained from the seeded database by registering UserA with random
token 7), the username UserB is absent from the users table, yet a
`POST /register` for UserB whose random token is again 7 inserts no
record — the INSERT dies on the UNIQUE `hashedGoogleId` constraint —
while still redirecting to `/register`. -/
theorem register_fresh_username_no_insert :
    (postRegisterRoute (initState 0 0) "UserA" 0 7 "2024-06-01 09:00").1 = sColl ∧
    findUserByUsername sColl.users "UserB" = none ∧
    (postRegisterRoute sColl "UserB" 0 7 "2024-06-02 10:00").1.users = sColl.users ∧
    (postRegisterRoute sColl "UserB" 0 7 "2024-06-02 10:00").2 = "/register" := by
  refine ⟨?_, rfl, ?_, rfl⟩
  · have hfindA : findUserByUsername (initState 0 0).users "UserA" = none := rfl
    have hanyA : (initState 0 0).users.any
        (fun u => u.username == "UserA" || u.hashedGoogleId == toString 7) = false := by
      decide
    simp only [postRegisterRoute, hfindA]
    rw [addUser_eq, if_neg (by simp [hanyA])]
    rfl
  · have hfindB : findUserByUsername sColl.users "UserB" = none := rfl
    have hanyB : sColl.users.any
        (fun u => u.username == "UserB" || u.hashedGoogleId == toString 7) = true := by
      decide
    simp only [postRegisterRoute, hfindB]
    rw [addUser_eq, if_pos hanyB]
/-- C5: `POST /login` with an unknown username leaves the session exactly
as it was (so the login fields stay unset) and redirects to
`/login?error=Not%20Found`; with a known username it sets `userId`,
`loggedIn` and `username` from that user's record. -/
theorem login_nonexistent_rejected (s : ServerState) (uname : String) :
    (findUserByUsername s.users uname = none →
       postLoginRoute s uname = (s, "/login?error=Not%20Found")) ∧
    (∀ u, findUserByUsername s.users uname = some u →
       (postLoginRoute s uname).1.session =
         { userId := some u.id, loggedIn := true, username := some u.username,
           avatar := some u.avatar, memberSince := some u.memberSince } ∧
       (postLoginRoute s uname).2 = "/") := by
  constructor
  · intro h
    simp [postLoginRoute, h]
  · intro u hu
    simp [postLoginRoute, loginUser, hu]

/-- C9: a `POST /like/:id` request from a session without a username, or
naming an id no post has, leaves the whole state unchanged and still
redirects to `/`. -/
theorem like_failure_atomic (s : ServerState) (i : ℕ) :
    (s.session.username = none → postLikeRoute s i = (s, "/")) ∧
    ((∀ p ∈ s.posts, p.id ≠ i) → postLikeRoute s i = (s, "/")) := by
  constructor
  · intro h
    simp [postLikeRoute, h]
  · intro h
    have hfind : s.posts.find? (fun p => p.id == i) = none := by
      rw [List.find?_eq_none]
      intro p hp
      simpa using h p hp
    by_cases hu : s.session.username = none
    · simp [postLikeRoute, hu]
    · simp [postLikeRoute, hu, updatePostLikes, hfind]

/-- C10: `generateAvatar(letter, width, height)` throws exactly when
width or height is not a number or is ≤ 0, and returns the drawn avatar
for every positive numeric width and height. -/
theorem generateAvatar_error_iff (letter : Char) (r : ℚ) (w h : JSVal) :
    ((∃ e, generateAvatar letter r w h = Except.error e) ↔
       (w.isNumber = false ∨ h.isNumber = false ∨ w.toQ ≤ 0 ∨ h.toQ ≤ 0)) ∧
    ((w.isNumber = true ∧ h.isNumber = true ∧ 0 < w.toQ ∧ 0 < h.toQ) →
       generateAvatar letter r w h =
         Except.ok { width := w.toQ, height := h.toQ,
                     bgColor := colorScheme.getD (floorTimes5 r).toNat "",
                     letter := letter.toUpper }) := by
  constructor
  · by_cases hc : ¬ w.isNumber ∨ ¬ h.isNumber ∨ w.toQ ≤ 0 ∨ h.toQ ≤ 0
    · simp only [generateAvatar, if_pos hc]
      constructor
      · intro _
        simpa [Bool.not_eq_true] using hc
      · intro _
        exact ⟨_, rfl⟩
    · simp only [generateAvatar, if_neg hc]
      constructor
      · rintro ⟨e, he⟩
        cases he
      · intro hd
        exact absurd (by simpa [Bool.not_eq_true] using hd) hc
  · rintro ⟨h1, h2, h3, h4⟩
    have hc : ¬ (¬ w.isNumber ∨ ¬ h.isNumber ∨ w.toQ ≤ 0 ∨ h.toQ ≤ 0) := by
      push_neg
      exact ⟨by simp [h1], by simp [h2], h3, h4⟩
    simp only [generateAvatar, if_neg hc]

/-! ## Witnesses: the theorems evaluated at concrete states -/

/-- C1 evaluated at the seeded state, logged in as SampleUser, liking the
first seeded post. -/
theorem like_increments_by_one_w :
    postW ∈ sW.posts ∧
    (postLikeRoute sW postW.id).1.posts =
      sW.posts.map (fun q => if q.id = postW.id then { q with likes := q.likes + 1 } else q) :=
  ⟨by decide, like_increments_by_one sW postW (by decide) (by decide) (by decide)⟩

/-- C2 evaluated at the seeded state: SampleUser deletes their own first
post, and it is gone. -/
theorem delete_only_by_author_w :
    postW ∉ (postDeleteRoute sW 1).1.posts :=
  (((delete_only_by_author sW 1 (by decide) (by decide)).1 postW (by decide)
      (by decide)).1).mpr (by decide)

/-- C3 evaluated at the seeded state: a post created while logged in as
SampleUser carries that username and zero likes. -/
theorem created_post_attribution_w :
    (postPostsRoute sW "Trail" "Nice hike" "2024-06-01 10:00").1.posts =
      sW.posts ++ [{ id := sW.nextPostId, title := "Trail", content := "Nice hike",
                     username := userW.username, timestamp := "2024-06-01 10:00",
                     likes := 0 }] :=
  created_post_attribution sW "SampleUser" userW "Trail" "Nice hike"
    "2024-06-01 10:00" rfl rfl

/-- C4 evaluated at the seeded state: registering the existing name
SampleUser changes nothing and redirects with the duplicate error. -/
theorem register_duplicate_rejected_w :
    postRegisterRoute (initState 0 0) "SampleUser" 0 7 "2024-06-01" =
      (initState 0 0, "/register?error=Already%20Registered") :=
  (register_duplicate_rejected (initState 0 0) "SampleUser" 0 7 "2024-06-01").1
    userW rfl

/-- C5 evaluated at the seeded state: logging in as an unknown user is
rejected with the not-found error. -/
theorem login_nonexistent_rejected_w :
    postLoginRoute (initState 0 0) "GhostUser" =
      (initState 0 0, "/login?error=Not%20Found") :=
  (login_nonexistent_rejected (initState 0 0) "GhostUser").1 rfl

/-- C6 evaluated at the seeded state: the first seeded post's like count
is non-negative. -/
theorem likes_nonneg_and_monotone_w : (0 : ℤ) ≤ postW.likes :=
  (likes_nonneg_and_monotone (initState 0 0)
    (Reachable.init 0 0 (by norm_num) (by norm_num))).1 postW (by decide)

/-- C7 evaluated at the seeded state: SampleUser's avatar is 100 × 100
with a palette background. -/
theorem avatar_known_user_fixed_w :
    (generateAvatarD 'S' 0).width = 100 ∧ (generateAvatarD 'S' 0).height = 100 ∧
    (generateAvatarD 'S' 0).bgColor ∈ colorScheme :=
  avatar_known_user_fixed (initState 0 0) "SampleUser" (generateAvatarD 'S' 0)
    (Reachable.init 0 0 (by norm_num) (by norm_num)) rfl

/-- C8 evaluated at the seeded state: a logout leaves the users table
unchanged. -/
theorem users_table_frame_w :
    (step (initState 0 0) Op.logout).users = (initState 0 0).users :=
  (users_table_frame (initState 0 0) Op.logout).1 rfl

/-- C9 evaluated at the seeded state: a like from the anonymous session
changes nothing and redirects home. -/
theorem like_failure_atomic_w :
    postLikeRoute (initState 0 0) 99 = (initState 0 0, "/") :=
  (like_failure_atomic (initState 0 0) 99).1 rfl

/-- C10 evaluated at positive numeric 50 × 80: `generateAvatar` returns
the drawn avatar. -/
theorem generateAvatar_error_iff_w :
    generateAvatar 'a' 0 (JSVal.num 50) (JSVal.num 80) =
      Except.ok { width := (JSVal.num 50).toQ, height := (JSVal.num 80).toQ,
                  bgColor := colorScheme.getD (floorTimes5 0).toNat "",
                  letter := Char.toUpper 'a' } :=
  (generateAvatar_error_iff 'a' 0 (JSVal.num 50) (JSVal.num 80)).2
    ⟨rfl, rfl, by norm_num [JSVal.toQ], by norm_num [JSVal.toQ]⟩

end HikingBlog
